import Mathlib

/-!
Shallow embedding of the arma-support-web admin console
(app/permissions.py, app/crud_dynamic.py, app/routers/admin_players.py,
app/routers/auth_routes.py) and verification of its specification claims.

SQL tables are modelled as Lean lists of rows; SQL `SELECT ... LIMIT 1`
existence queries become `List.any`; handlers that raise HTTP errors
return `Except`.
-/

namespace ArmaWeb

/-- Association-list lookup, modelling Python `dict.get` / `dict[...]`. -/
def lookup {α : Type} (l : List (String × α)) (k : String) : Option α :=
  (l.find? (fun kv => kv.1 = k)).map (fun kv => kv.2)

/-! ## Authorization tables (permissions.py)

`admin_user_roles` rows are (user_id, role_id) pairs; `admin_roles` rows
are (role_id, name) pairs. -/

/-- A row of `admin_permissions`: per (role, table) CRUD booleans. -/
structure PermRow where
  role_id : Nat
  table_name : String
  can_view : Bool
  can_create : Bool
  can_update : Bool
  can_delete : Bool
deriving DecidableEq, Repr

/-- A row of `admin_panel_permissions`. -/
structure PanelPermRow where
  role_id : Nat
  can_admin_access : Bool
  can_user_create : Bool
  can_user_toggle : Bool
  can_user_role_add : Bool
  can_user_role_remove : Bool
  can_role_create : Bool
  can_permissions_edit : Bool
deriving DecidableEq, Repr

/-- A row of `admin_kv_permissions`: per (role, side, field) edit right. -/
structure KvPermRow where
  role_id : Nat
  side : Int
  field_name : String
  can_edit : Bool
deriving DecidableEq, Repr

/-- The authorization database: the four tables joined by permissions.py. -/
structure AuthDB where
  user_roles : List (Nat × Nat)
  roles : List (Nat × String)
  permissions : List PermRow
  panel_permissions : List PanelPermRow
  kv_permissions : List KvPermRow
deriving Repr

/-- Model of `is_admin` (permissions.py): the user holds a role named "admin". -/
def is_admin (db : AuthDB) (user_id : Nat) : Bool :=
  db.user_roles.any (fun ur =>
    ur.1 = user_id ∧ db.roles.any (fun r => r.1 = ur.2 ∧ r.2 = "admin"))

/-- Model of `ACTION_COL` (permissions.py): maps an action name to the permission
column tested by the generated SQL. -/
def ACTION_COL : List (String × (PermRow → Bool)) :=
  [("view", fun p => p.can_view),
   ("create", fun p => p.can_create),
   ("update", fun p => p.can_update),
   ("delete", fun p => p.can_delete)]

/-- Model of `can` (permissions.py): table CRUD rights. Unknown action returns
false; otherwise an existence query joining admin_user_roles and
admin_permissions on role_id, filtered by table name and the action
column. No admin short-circuit. -/
def can (db : AuthDB) (user_id : Nat) (table_name : String) (action : String) : Bool :=
  match lookup ACTION_COL action with
  | none => false
  | some col =>
      db.user_roles.any (fun ur =>
        ur.1 = user_id ∧ db.permissions.any (fun p =>
          p.role_id = ur.2 ∧ p.table_name = table_name ∧ col p))

/-- Model of `ADMIN_ACTION_COL` (permissions.py). -/
def ADMIN_ACTION_COL : List (String × (PanelPermRow → Bool)) :=
  [("admin_access", fun p => p.can_admin_access),
   ("user_create", fun p => p.can_user_create),
   ("user_toggle", fun p => p.can_user_toggle),
   ("user_role_add", fun p => p.can_user_role_add),
   ("user_role_remove", fun p => p.can_user_role_remove),
   ("role_create", fun p => p.can_role_create),
   ("permissions_edit", fun p => p.can_permissions_edit)]

/-- Model of `can_admin_panel` (permissions.py): admin-panel rights per role from
admin_panel_permissions. No admin short-circuit. -/
def can_admin_panel (db : AuthDB) (user_id : Nat) (action : String) : Bool :=
  match lookup ADMIN_ACTION_COL action with
  | none => false
  | some col =>
      db.user_roles.any (fun ur =>
        ur.1 = user_id ∧ db.panel_permissions.any (fun ap =>
          ap.role_id = ur.2 ∧ col ap))

/-- Model of `KV_FIELDS` (permissions.py): the eleven editable kvstore fields. -/
def KV_FIELDS : List String :=
  ["name", "level", "pt", "cash", "bank",
   "address", "town", "birthday", "birthlocation",
   "eyecolor", "height"]

/-- Model of `can_kv_field` (permissions.py): field-level kvstore rights. Invalid
side or field denies first; then the admin role short-circuits to true;
otherwise an existence query on admin_kv_permissions. -/
def can_kv_field (db : AuthDB) (user_id : Nat) (side : Int) (field_name : String) : Bool :=
  if ¬ (side = 0 ∨ side = 1 ∨ side = 2) then false
  else if ¬ (field_name ∈ KV_FIELDS) then false
  else if is_admin db user_id then true
  else
    db.user_roles.any (fun ur =>
      ur.1 = user_id ∧ db.kv_permissions.any (fun kp =>
        kp.role_id = ur.2 ∧ kp.side = side ∧ kp.field_name = field_name ∧ kp.can_edit))

/-! ## Dynamic table reflector (crud_dynamic.py)

A reflected table is its column list; a row is an association list from
column name to stored value; table data is a list of rows. -/

/-- A reflected column (crud_dynamic.py uses name and primary_key flag). -/
structure Column where
  name : String
  primary_key : Bool
deriving DecidableEq, Repr

/-- A reflected `Table`: its columns. -/
structure Table where
  columns : List Column
deriving DecidableEq, Repr

/-- A stored row: column name to value. -/
abbrev Row : Type := List (String × String)

/-- Test `k in t.c` (crud_dynamic.py): k names a column of the table. -/
def isColumn (t : Table) (k : String) : Bool :=
  t.columns.any (fun c => c.name = k)

/-- Model of `primary_key_columns` (crud_dynamic.py). -/
def primary_key_columns (t : Table) : List Column :=
  t.columns.filter (fun c => c.primary_key)

/-- Model of `row_identity_filter` (crud_dynamic.py): raises if the table has no
primary key, then for each PK column raises if it is absent from
`pk_values`, else collects the equality condition (column name, value). -/
def row_identity_filter (t : Table) (pk_values : List (String × String)) :
    Except String (List (String × String)) :=
  let pks := primary_key_columns t
  if pks.isEmpty then
    .error "Tabelle hat keinen PRIMARY KEY; Edit/Delete ist unsicher. Bitte PK anlegen."
  else
    pks.foldlM (fun conds c =>
      match lookup pk_values c.name with
      | none => Except.error ("PK-Spalte fehlt: " ++ c.name)
      | some v => Except.ok (conds ++ [(c.name, v)])) []

/-- A row satisfies the equality-conjunction filter. -/
def rowMatches (conds : List (String × String)) (r : Row) : Bool :=
  conds.all (fun kv => lookup r kv.1 = some kv.2)

/-- Overwrite (or add) one column value in a row. -/
def setVal (r : Row) (k v : String) : Row :=
  if r.any (fun kv => kv.1 = k) then
    r.map (fun kv => if kv.1 = k then (k, v) else kv)
  else r ++ [(k, v)]

/-- Apply an UPDATE payload to a row. -/
def applyPayload (payload : List (String × String)) (r : Row) : Row :=
  payload.foldl (fun acc kv => setVal acc kv.1 kv.2) r

/-- Model of `create_row` (crud_dynamic.py): filter the form data to known
columns and insert the resulting row. -/
def create_row (t : Table) (rows : List Row) (data : List (String × String)) : List Row :=
  let payload := data.filter (fun kv => isColumn t kv.1)
  rows ++ [payload]

/-- Model of `update_row` (crud_dynamic.py): payload keeps known non-PK-supplied
columns; the identity filter is built before any statement executes, so
its error leaves the data unchanged (`Except.error`). -/
def update_row (t : Table) (rows : List Row) (pk_values data : List (String × String)) :
    Except String (List Row) :=
  let payload := data.filter (fun kv =>
    isColumn t kv.1 ∧ ¬ (pk_values.map (fun p => p.1)).contains kv.1)
  match row_identity_filter t pk_values with
  | .error e => .error e
  | .ok conds =>
      .ok (rows.map (fun r => if rowMatches conds r then applyPayload payload r else r))

/-- Model of `delete_row` (crud_dynamic.py). -/
def delete_row (t : Table) (rows : List Row) (pk_values : List (String × String)) :
    Except String (List Row) :=
  match row_identity_filter t pk_values with
  | .error e => .error e
  | .ok conds => .ok (rows.filter (fun r => ¬ rowMatches conds r))

/-! ## Player key/value store and the info-save handler
(routers/admin_players.py) -/

/-- The kvstore keyed by (pid, k, side); values are strings. -/
abbrev KvStore : Type := String → String → Int → Option String

/-- The `ON DUPLICATE KEY UPDATE` upsert into kvstore. -/
def kvUpsert (st : KvStore) (pid k : String) (side : Int) (v : String) : KvStore :=
  fun p k2 s => if p = pid ∧ k2 = k ∧ s = side then some v else st p k2 s

/-- The fixed field list of `save_player_info_side`. -/
def infoFields : List String :=
  ["name", "level", "pt", "cash", "bank", "address", "town",
   "birthday", "birthlocation", "eyecolor", "height"]

/-- One loop iteration of `save_player_info_side`: skip the field when
the acting user lacks the per-(side, field) right, trim the submitted
value, treat empty as no-change, else upsert keyed by (pid, field, side). -/
def saveInfoStep (perm : Int → String → Bool) (form : String → Option String)
    (pid : String) (side : Int) (st : KvStore) (f : String) : KvStore :=
  if ¬ perm side f then st
  else
    let val := ((form f).getD "").trim
    if val = "" then st
    else kvUpsert st pid f side val

/-- Model of `save_player_info_side` (admin_players.py), its per-field loop: the
acting user's field rights are the `perm` oracle (`can_kv_field` at the
current uid), `form` the submitted form data. -/
def save_player_info_side (perm : Int → String → Bool) (form : String → Option String)
    (pid : String) (side : Int) (st : KvStore) : KvStore :=
  infoFields.foldl (saveInfoStep perm form pid side) st

/-! ## Support cases (routers/admin_players.py) -/

/-- A `support_cases` row (the columns the handlers write). -/
structure SupportCase where
  id : Nat
  player_pid : String
  player_name : String
  case_type : String
  area : String
  supporter_name : String
  scn : String
  content : String
  status : String
deriving DecidableEq, Repr

/-- Python `(s or d)`: an empty (falsy) string falls back to the default. -/
def orDefault (s d : String) : String := if s = "" then d else s

/-- Model of `support_update` (admin_players.py): an out-of-vocabulary status is
coerced to "open" before the UPDATE; the UPDATE rewrites every column of
the case matched by id and player pid. -/
def support_update (cases : List SupportCase) (pid : String) (case_id : Nat)
    (case_type supporter_name area scn content status : String) : List SupportCase :=
  let status2 := if ¬ (status = "open" ∨ status = "closed") then "open" else status
  cases.map (fun c =>
    if c.id = case_id ∧ c.player_pid = pid then
      { c with
        case_type := case_type.trim,
        area := (orDefault area "Support").trim,
        supporter_name := supporter_name.trim,
        scn := (orDefault scn "").trim,
        content := orDefault content "",
        status := status2 }
    else c)

/-- The SQL CASE expression of `support_toggle_status`. -/
def toggleStatus (s : String) : String :=
  if s = "open" then "closed" else "open"

/-- The effect of the toggle UPDATE on a single `support_cases` row. -/
def toggleCase (pid : String) (case_id : Nat) (c : SupportCase) : SupportCase :=
  if c.id = case_id ∧ c.player_pid = pid then { c with status := toggleStatus c.status }
  else c

/-- Model of `support_toggle_status` (admin_players.py): toggles the status of
the case matched by id and player pid. -/
def support_toggle_status (cases : List SupportCase) (pid : String) (case_id : Nat) :
    List SupportCase :=
  cases.map (toggleCase pid case_id)

/-! ## Vehicles (routers/admin_players.py) -/

/-- A `vehicles` row (the integer flag columns the quick actions touch). -/
structure Vehicle where
  id : Nat
  pid : String
  alive : Nat
  active : Nat
  sold : Nat
  locked : Nat
deriving DecidableEq, Repr

/-- The `allowed` quick-action set of `vehicle_quick_action`. -/
def allowedQuickActions : List String :=
  ["restore", "lock", "unlock", "sell", "unsell", "kill", "revive"]

/-- The per-action SET clause of `vehicle_quick_action`. -/
def applyQuickAction (action : String) (v : Vehicle) : Vehicle :=
  if action = "restore" then { v with active := 1, sold := 0, alive := 1 }
  else if action = "lock" then { v with locked := 1 }
  else if action = "unlock" then { v with locked := 0 }
  else if action = "sell" then { v with sold := 1 }
  else if action = "unsell" then { v with sold := 0 }
  else if action = "kill" then { v with alive := 0 }
  else if action = "revive" then { v with alive := 1 }
  else v

/-- Model of `vehicle_quick_action` (admin_players.py): an action outside the
allowed set raises HTTP 400 before any statement executes; otherwise the
matched vehicle row is updated. -/
def vehicle_quick_action (vehicles : List Vehicle) (vehicle_id : Nat) (action : String) :
    Except Nat (List Vehicle) :=
  if ¬ (action ∈ allowedQuickActions) then .error 400
  else .ok (vehicles.map (fun v =>
    if v.id = vehicle_id then applyQuickAction action v else v))

/-! ## Login (routers/auth_routes.py, auth.py) -/

/-- An `admin_users` row (the columns the login query selects). -/
structure AdminUserRow where
  id : Nat
  username : String
  password_hash : String
  is_active : Bool
deriving DecidableEq, Repr

/-- The login handler's response: re-rendered login page with an error
message, or a redirect. -/
inductive LoginResponse where
  | loginPage (error : Option String)
  | redirect (target : String)
deriving DecidableEq, Repr

/-- The `SELECT ... WHERE username=:u LIMIT 1` lookup of the login handler. -/
def findUser (users : List AdminUserRow) (username : String) : Option AdminUserRow :=
  users.find? (fun u => u.username = username)

/-- Model of `login` (auth_routes.py): `verify` is the bcrypt password check
(password, stored hash). Returns the HTTP response and the session
user id written (none when the session is untouched). -/
def login (users : List AdminUserRow) (verify : String → String → Bool)
    (username password : String) : LoginResponse × Option Nat :=
  match findUser users username with
  | none => (.loginPage (some "Login fehlgeschlagen."), none)
  | some row =>
      if ¬ row.is_active ∨ ¬ verify password row.password_hash then
        (.loginPage (some "Login fehlgeschlagen."), none)
      else (.redirect "/tables", some row.id)

/-! ## Theorems -/

/-- The existence query of `can`, characterized for a fixed column. -/
theorem can_query_characterization (db : AuthDB) (uid : Nat) (t : String)
    (col : PermRow → Bool) :
    (db.user_roles.any (fun ur =>
      ur.1 = uid ∧ db.permissions.any (fun p =>
        p.role_id = ur.2 ∧ p.table_name = t ∧ col p)) = true) ↔
    ∃ rid, (uid, rid) ∈ db.user_roles ∧ ∃ p ∈ db.permissions,
      p.role_id = rid ∧ p.table_name = t ∧ col p = true := by
  simp only [List.any_eq_true, decide_eq_true_eq]
  constructor
  · rintro ⟨⟨u, r⟩, hm, h1, p, hp, h2, h3, h4⟩
    subst h1
    exact ⟨r, hm, p, hp, h2, h3, h4⟩
  · rintro ⟨rid, hm, p, hp, h2, h3, h4⟩
    exact ⟨(uid, rid), hm, rfl, p, hp, h2, h3, h4⟩

/-- C2: `can` returns true iff the action is one of the four known CRUD
actions and some role of the user has a permission row for the table
with the corresponding boolean set; unknown actions and absent rows
always yield false, never an error (the function is total). -/
theorem can_true_iff_known_action_and_row (db : AuthDB) (uid : Nat) (t a : String) :
    can db uid t a = true ↔
      ∃ rid, (uid, rid) ∈ db.user_roles ∧ ∃ p ∈ db.permissions,
        p.role_id = rid ∧ p.table_name = t ∧
        ((a = "view" ∧ p.can_view = true) ∨
         (a = "create" ∧ p.can_create = true) ∨
         (a = "update" ∧ p.can_update = true) ∨
         (a = "delete" ∧ p.can_delete = true)) := by
  by_cases hv : a = "view"
  · subst hv
    rw [can, show lookup ACTION_COL "view" = some (fun p => p.can_view) from rfl]
    rw [can_query_characterization]
    simp
  by_cases hc : a = "create"
  · subst hc
    rw [can, show lookup ACTION_COL "create" = some (fun p => p.can_create) from rfl]
    rw [can_query_characterization]
    simp
  by_cases hu : a = "update"
  · subst hu
    rw [can, show lookup ACTION_COL "update" = some (fun p => p.can_update) from rfl]
    rw [can_query_characterization]
    simp
  by_cases hd : a = "delete"
  · subst hd
    rw [can, show lookup ACTION_COL "delete" = some (fun p => p.can_delete) from rfl]
    rw [can_query_characterization]
    simp
  have hnone : lookup ACTION_COL a = none := by
    rw [lookup, List.find?_eq_none.mpr]
    · rfl
    · intro kv hkv
      simp only [ACTION_COL, List.mem_cons, List.not_mem_nil, or_false] at hkv
      rcases hkv with rfl | rfl | rfl | rfl <;>
        simp only [decide_eq_true_eq] <;> intro h <;>
        first
          | exact hv h.symm
          | exact hc h.symm
          | exact hu h.symm
          | exact hd h.symm
  rw [can, hnone]
  simp [hv, hc, hu, hd]

/-- C2 witness: a concrete evaluation of the characterization. -/
theorem can_true_iff_known_action_and_row_witness :
    can (AuthDB.mk [(1, 7)] [(7, "staff")]
      [PermRow.mk 7 "plog" true false false false] [] []) 1 "plog" "view" = true ↔
      ∃ rid, (1, rid) ∈ [(1, 7)] ∧
        ∃ p ∈ [PermRow.mk 7 "plog" true false false false],
          p.role_id = rid ∧ p.table_name = "plog" ∧
          (("view" = "view" ∧ p.can_view = true) ∨
           ("view" = "create" ∧ p.can_create = true) ∨
           ("view" = "update" ∧ p.can_update = true) ∨
           ("view" = "delete" ∧ p.can_delete = true)) :=
  can_true_iff_known_action_and_row
    (AuthDB.mk [(1, 7)] [(7, "staff")]
      [PermRow.mk 7 "plog" true false false false] [] []) 1 "plog" "view"

/-- C3 counterexample: user 1 holds the 'admin' role, yet with no rows
in admin_permissions and admin_panel_permissions both `can` and
`can_admin_panel` deny — the admin role does not bypass these checks. -/
theorem admin_role_no_table_panel_bypass_cex :
    is_admin (AuthDB.mk [(1, 7)] [(7, "admin")] [] [] []) 1 = true ∧
    can (AuthDB.mk [(1, 7)] [(7, "admin")] [] [] []) 1 "plog" "view" = false ∧
    can_admin_panel (AuthDB.mk [(1, 7)] [(7, "admin")] [] [] []) 1 "admin_access" = false := by
  refine ⟨by decide, by decide, by decide⟩

/-- C3 amended: the admin role grants no automatic pass in `can` or
`can_admin_panel`; when no permission row (table or panel) exists at
all, both checks deny every action and table even for a user holding
the 'admin' role. Only the field-level check short-circuits on admin. -/
theorem admin_denied_without_matching_row (db : AuthDB) (uid : Nat) (t a a2 : String)
    (hadmin : is_admin db uid = true)
    (hp : db.permissions = []) (hap : db.panel_permissions = []) :
    can db uid t a = false ∧ can_admin_panel db uid a2 = false := by
  constructor
  · rw [can]
    cases h : lookup ACTION_COL a with
    | none => rfl
    | some col => simp [hp]
  · rw [can_admin_panel]
    cases h : lookup ADMIN_ACTION_COL a2 with
    | none => rfl
    | some col => simp [hap]

/-- C3 amended witness. -/
theorem admin_denied_without_matching_row_witness :
    is_admin (AuthDB.mk [(1, 7)] [(7, "admin")] [] [] []) 1 = true ∧
    (can (AuthDB.mk [(1, 7)] [(7, "admin")] [] [] []) 1 "vehicles" "delete" = false ∧
     can_admin_panel (AuthDB.mk [(1, 7)] [(7, "admin")] [] [] []) 1 "user_create" = false) :=
  ⟨by decide,
   admin_denied_without_matching_row (AuthDB.mk [(1, 7)] [(7, "admin")] [] [] [])
     1 "vehicles" "delete" "user_create" (by decide) rfl rfl⟩

/-- C4: a user holding the 'admin' role passes `can_kv_field` for every
side in {0,1,2} and every whitelisted field, regardless of the contents
of admin_kv_permissions (db.kv_permissions is arbitrary here). -/
theorem admin_bypasses_kv_field_check (db : AuthDB) (uid : Nat) (side : Int)
    (f : String) (hadmin : is_admin db uid = true)
    (hside : side = 0 ∨ side = 1 ∨ side = 2) (hf : f ∈ KV_FIELDS) :
    can_kv_field db uid side f = true := by
  rw [can_kv_field]
  simp [hside, hf, hadmin]

/-- C4 witness: an admin whose admin_kv_permissions row explicitly sets
can_edit to false is still allowed. -/
theorem admin_bypasses_kv_field_check_witness :
    is_admin (AuthDB.mk [(1, 7)] [(7, "admin")] [] []
      [KvPermRow.mk 7 1 "cash" false]) 1 = true ∧
    ((1 : Int) = 0 ∨ (1 : Int) = 1 ∨ (1 : Int) = 2) ∧
    "cash" ∈ KV_FIELDS ∧
    can_kv_field (AuthDB.mk [(1, 7)] [(7, "admin")] [] []
      [KvPermRow.mk 7 1 "cash" false]) 1 1 "cash" = true :=
  ⟨by decide, by decide, by decide,
   admin_bypasses_kv_field_check
     (AuthDB.mk [(1, 7)] [(7, "admin")] [] [] [KvPermRow.mk 7 1 "cash" false])
     1 1 "cash" (by decide) (by decide) (by decide)⟩

/-- C10: `can_kv_field` denies whenever the side is outside {0,1,2} or
the field is outside the eleven-field whitelist, for every user — the
validation precedes the admin short-circuit, so even admins get false. -/
theorem kv_field_whitelist_precedes_admin (db : AuthDB) (uid : Nat) (side : Int)
    (f : String) (h : ¬ (side = 0 ∨ side = 1 ∨ side = 2) ∨ ¬ (f ∈ KV_FIELDS)) :
    can_kv_field db uid side f = false := by
  rw [can_kv_field]
  rcases h with h | h
  · simp [h]
  · by_cases hs : side = 0 ∨ side = 1 ∨ side = 2 <;> simp [hs, h]

/-- C10 witness: an admin is denied on side 3 and on a non-whitelisted
field. -/
theorem kv_field_whitelist_precedes_admin_witness :
    (¬ ((3 : Int) = 0 ∨ (3 : Int) = 1 ∨ (3 : Int) = 2) ∨ ¬ ("cash" ∈ KV_FIELDS)) ∧
    can_kv_field (AuthDB.mk [(1, 7)] [(7, "admin")] [] [] []) 1 3 "cash" = false :=
  ⟨by decide,
   kv_field_whitelist_precedes_admin (AuthDB.mk [(1, 7)] [(7, "admin")] [] [] [])
     1 3 "cash" (by decide)⟩

/-- The PK-collecting fold of `row_identity_filter` errors as soon as
some listed column has no entry in the supplied key map. -/
theorem pk_fold_error (pk_values : List (String × String)) :
    ∀ (l : List Column) (acc : List (String × String)),
      (∃ c ∈ l, lookup pk_values c.name = none) →
      ∃ e, (l.foldlM (fun conds c =>
        match lookup pk_values c.name with
        | none => Except.error ("PK-Spalte fehlt: " ++ c.name)
        | some v => Except.ok (conds ++ [(c.name, v)])) acc) = Except.error e
  | [], _, h => absurd h (by simp)
  | c :: l, acc, h => by
      rw [List.foldlM_cons]
      cases hc : lookup pk_values c.name with
      | none =>
          exact ⟨"PK-Spalte fehlt: " ++ c.name, rfl⟩
      | some v =>
          obtain ⟨c2, hc2, hn⟩ := h
          rcases List.mem_cons.mp hc2 with rfl | hmem
          · rw [hc] at hn
            cases hn
          · obtain ⟨e, he⟩ := pk_fold_error pk_values l (acc ++ [(c.name, v)]) ⟨c2, hmem, hn⟩
            exact ⟨e, he⟩

/-- Lemma: `row_identity_filter` errors when the table has no PK column or some
PK column is absent from the supplied key map. -/
theorem row_identity_filter_error (t : Table) (pk_values : List (String × String))
    (h : primary_key_columns t = [] ∨
      ∃ c ∈ primary_key_columns t, ∀ kv ∈ pk_values, kv.1 ≠ c.name) :
    ∃ e, row_identity_filter t pk_values = Except.error e := by
  rw [row_identity_filter]
  rcases h with h | ⟨c, hc, habsent⟩
  · exact ⟨"Tabelle hat keinen PRIMARY KEY; Edit/Delete ist unsicher. Bitte PK anlegen.",
      by simp [h]⟩
  · have hne : ¬ (primary_key_columns t).isEmpty := by
      cases hpk : primary_key_columns t with
      | nil => rw [hpk] at hc; cases hc
      | cons x xs => simp
    have hnone : lookup pk_values c.name = none := by
      rw [lookup, List.find?_eq_none.mpr]
      · rfl
      · intro kv hkv
        simpa using habsent kv hkv
    obtain ⟨e, he⟩ := pk_fold_error pk_values (primary_key_columns t) [] ⟨c, hc, hnone⟩
    exact ⟨e, by simp only [hne, if_false]; exact he⟩

/-- C1: for a table with no primary-key column, or a supplied key map
missing some primary-key column, `update_row` and `delete_row` error
before executing any statement — `Except.error` carries no new table
data, so the rows are unchanged. -/
theorem update_delete_require_complete_pk (t : Table) (rows : List Row)
    (pk_values data : List (String × String))
    (h : primary_key_columns t = [] ∨
      ∃ c ∈ primary_key_columns t, ∀ kv ∈ pk_values, kv.1 ≠ c.name) :
    (∃ e, update_row t rows pk_values data = Except.error e) ∧
    (∃ e, delete_row t rows pk_values = Except.error e) := by
  obtain ⟨e, he⟩ := row_identity_filter_error t pk_values h
  exact ⟨⟨e, by rw [update_row, he]⟩, ⟨e, by rw [delete_row, he]⟩⟩

/-- C1 witness: a two-column table whose PK column `id` is absent from
the supplied key map. -/
theorem update_delete_require_complete_pk_witness :
    (primary_key_columns (Table.mk [Column.mk "id" true, Column.mk "v" false]) = [] ∨
      ∃ c ∈ primary_key_columns (Table.mk [Column.mk "id" true, Column.mk "v" false]),
        ∀ kv ∈ [("v", "x")], kv.1 ≠ c.name) ∧
    ((∃ e, update_row (Table.mk [Column.mk "id" true, Column.mk "v" false])
        [[("id", "1"), ("v", "old")]] [("v", "x")] [("v", "new")] = Except.error e) ∧
     (∃ e, delete_row (Table.mk [Column.mk "id" true, Column.mk "v" false])
        [[("id", "1"), ("v", "old")]] [("v", "x")] = Except.error e)) :=
  ⟨by decide,
   update_delete_require_complete_pk
     (Table.mk [Column.mk "id" true, Column.mk "v" false])
     [[("id", "1"), ("v", "old")]] [("v", "x")] [("v", "new")] (by decide)⟩

/-- C7: `create_row` inserts one row holding exactly the submitted
entries whose keys are columns of the target table; unknown keys are
dropped and the operation is total (never an error). -/
theorem create_row_keeps_exactly_known_columns (t : Table) (rows : List Row)
    (data : List (String × String)) :
    ∃ r, create_row t rows data = rows ++ [r] ∧
      ∀ kv, kv ∈ r ↔ kv ∈ data ∧ isColumn t kv.1 = true := by
  refine ⟨data.filter (fun kv => isColumn t kv.1), rfl, ?_⟩
  intro kv
  simp [List.mem_filter]

/-- C7 witness: a concrete instance of the insertion shape. -/
theorem create_row_keeps_exactly_known_columns_witness :
    ∃ r, create_row (Table.mk [Column.mk "id" true, Column.mk "v" false]) []
        [("v", "x"), ("junk", "y")] = [] ++ [r] ∧
      ∀ kv, kv ∈ r ↔ kv ∈ [("v", "x"), ("junk", "y")] ∧
        isColumn (Table.mk [Column.mk "id" true, Column.mk "v" false]) kv.1 = true :=
  create_row_keeps_exactly_known_columns
    (Table.mk [Column.mk "id" true, Column.mk "v" false]) [] [("v", "x"), ("junk", "y")]

/-- One save step touches only the key (pid, its own field, side). -/
theorem saveInfoStep_frame (perm : Int → String → Bool) (form : String → Option String)
    (pid : String) (side : Int) (st : KvStore) (g : String)
    (p k : String) (s : Int) (h : k ≠ g ∨ p ≠ pid ∨ s ≠ side) :
    saveInfoStep perm form pid side st g p k s = st p k s := by
  rw [saveInfoStep]
  by_cases hp : perm side g
  · simp only [hp, not_true, if_false]
    by_cases hv : ((form g).getD "").trim = ""
    · simp [hv]
    · simp only [hv, if_false, kvUpsert]
      have : ¬ (p = pid ∧ k = g ∧ s = side) := by
        rintro ⟨rfl, rfl, rfl⟩
        rcases h with h | h | h <;> exact h rfl
      simp [this]
  · simp [hp]

/-- The save fold leaves every key outside its field list (or with a
different pid or side) unchanged. -/
theorem saveFold_frame (perm : Int → String → Bool) (form : String → Option String)
    (pid : String) (side : Int) :
    ∀ (l : List String) (st : KvStore) (p k : String) (s : Int),
      (k ∉ l ∨ p ≠ pid ∨ s ≠ side) →
      (l.foldl (saveInfoStep perm form pid side) st) p k s = st p k s
  | [], _, _, _, _, _ => rfl
  | g :: l, st, p, k, s, h => by
      rw [List.foldl_cons]
      have hstep : saveInfoStep perm form pid side st g p k s = st p k s := by
        apply saveInfoStep_frame
        rcases h with h | h
        · exact Or.inl (fun hkg => h (hkg ▸ List.mem_cons_self g l))
        · exact Or.inr h
      have htail : k ∉ l ∨ p ≠ pid ∨ s ≠ side := by
        rcases h with h | h
        · exact Or.inl (fun hk => h (List.mem_cons_of_mem g hk))
        · exact Or.inr h
      rw [saveFold_frame perm form pid side l _ p k s htail, hstep]

/-- Over a duplicate-free field list, the fold's effect at the key
(pid, f, side) for a listed field f is exactly f's own step. -/
theorem saveFold_at_field (perm : Int → String → Bool) (form : String → Option String)
    (pid : String) (side : Int) :
    ∀ (l : List String) (st : KvStore) (f : String), l.Nodup → f ∈ l →
      (l.foldl (saveInfoStep perm form pid side) st) pid f side =
        (if perm side f ∧ ((form f).getD "").trim ≠ "" then
          some (((form f).getD "").trim)
        else st pid f side)
  | [], _, _, _, hf => absurd hf (List.not_mem_nil _)
  | g :: l, st, f, hnd, hf => by
      rw [List.foldl_cons]
      rcases List.mem_cons.mp hf with rfl | hmem
      · have hnotin : f ∉ l := (List.nodup_cons.mp hnd).1
        rw [saveFold_frame perm form pid side l _ pid f side (Or.inl hnotin)]
        rw [saveInfoStep]
        by_cases hp : perm side f
        · simp only [hp, not_true, if_false]
          by_cases hv : ((form f).getD "").trim = ""
          · simp [hv, hp]
          · simp [hv, hp, kvUpsert]
        · simp [hp]
      · have hne : f ≠ g := by
          rintro rfl
          exact (List.nodup_cons.mp hnd).1 hmem
        have hstep : saveInfoStep perm form pid side st g pid f side = st pid f side :=
          saveInfoStep_frame perm form pid side st g pid f side (Or.inl hne)
        rw [saveFold_at_field perm form pid side l _ f (List.nodup_cons.mp hnd).2 hmem, hstep]

/-- C5: saving the per-faction info form writes the key (pid, f, side)
of a listed field f exactly when the acting user's per-(side, field)
check passes and the submitted value is non-empty after trimming — the
trimmed value is then upserted — and leaves it unchanged otherwise;
keys outside the field list, or with another pid or side, are never
touched. -/
theorem save_info_per_field_guard (perm : Int → String → Bool)
    (form : String → Option String) (pid : String) (side : Int) (st : KvStore)
    (f : String) (hf : f ∈ infoFields) :
    (save_player_info_side perm form pid side st pid f side =
      (if perm side f ∧ ((form f).getD "").trim ≠ "" then
        some (((form f).getD "").trim)
      else st pid f side)) ∧
    (∀ p k s, (k ∉ infoFields ∨ p ≠ pid ∨ s ≠ side) →
      save_player_info_side perm form pid side st p k s = st p k s) := by
  constructor
  · exact saveFold_at_field perm form pid side infoFields st f (by decide) hf
  · intro p k s h
    exact saveFold_frame perm form pid side infoFields st p k s h

/-- C5 witness: with full rights, a trimmed non-empty field is
upserted, while the preceding equation also certifies the guard shape
at the concrete instance. -/
theorem save_info_per_field_guard_witness :
    ("cash" ∈ infoFields) ∧
    ((save_player_info_side (fun _ _ => true) (fun _ => some " 42 ") "p1" 0
        (fun _ _ _ => none) "p1" "cash" 0 =
      (if (fun (_ : Int) (_ : String) => true) 0 "cash" ∧
          (((fun (_ : String) => some " 42 ") "cash").getD "").trim ≠ "" then
        some ((((fun (_ : String) => some " 42 ") "cash").getD "").trim)
      else (fun (_ : String) (_ : String) (_ : Int) => none) "p1" "cash" 0)) ∧
    (∀ p k s, (k ∉ infoFields ∨ p ≠ "p1" ∨ s ≠ 0) →
      save_player_info_side (fun _ _ => true) (fun _ => some " 42 ") "p1" 0
        (fun _ _ _ => none) p k s = (fun _ _ _ => none : KvStore) p k s)) :=
  ⟨by decide,
   save_info_per_field_guard (fun _ _ => true) (fun _ => some " 42 ") "p1" 0
     (fun _ _ _ => none) "cash" (by decide)⟩

/-- Toggling one row twice restores it when its status is a valid
state. -/
theorem toggleCase_involutive (pid : String) (cid : Nat) (c : SupportCase)
    (h : c.status = "open" ∨ c.status = "closed") :
    toggleCase pid cid (toggleCase pid cid c) = c := by
  have ht : toggleStatus (toggleStatus c.status) = c.status := by
    rcases h with h | h <;> rw [h] <;> rfl
  rw [toggleCase, toggleCase]
  by_cases hc : c.id = cid ∧ c.player_pid = pid
  · obtain ⟨h1, h2⟩ := hc
    simp only [h1, h2, and_self, if_true, ht]
    rw [← h1, ← h2]
  · simp [hc]

/-- The toggled list, toggled again, is the original list (statuses
valid). -/
theorem toggle_map_involutive (pid : String) (cid : Nat) :
    ∀ (l : List SupportCase), (∀ c ∈ l, c.status = "open" ∨ c.status = "closed") →
      (l.map (toggleCase pid cid)).map (toggleCase pid cid) = l
  | [], _ => rfl
  | c :: cs, h => by
      rw [List.map_cons, List.map_cons,
        toggleCase_involutive pid cid c (h c (List.mem_cons_self c cs)),
        toggle_map_involutive pid cid cs (fun x hx => h x (List.mem_cons_of_mem c hx))]

/-- C6: on support cases whose statuses lie in the two-state machine
{open, closed}, applying the toggle action twice restores the case
list; a single toggle keeps every status inside the two states and
sends open to closed and closed to open (no other states, transitions
only between them). -/
theorem support_toggle_status_involutive (cases : List SupportCase) (pid : String)
    (cid : Nat) (h : ∀ c ∈ cases, c.status = "open" ∨ c.status = "closed") :
    support_toggle_status (support_toggle_status cases pid cid) pid cid = cases ∧
    (∀ c ∈ support_toggle_status cases pid cid,
      c.status = "open" ∨ c.status = "closed") ∧
    toggleStatus "open" = "closed" ∧ toggleStatus "closed" = "open" := by
  refine ⟨?_, ?_, rfl, rfl⟩
  · rw [support_toggle_status, support_toggle_status]
    exact toggle_map_involutive pid cid cases h
  · intro c hc
    rw [support_toggle_status] at hc
    obtain ⟨c0, hc0, rfl⟩ := List.mem_map.mp hc
    rw [toggleCase]
    split
    · rcases h c0 hc0 with h0 | h0 <;> simp [toggleStatus, h0]
    · exact h c0 hc0

/-- C6 witness: a one-case list with status open. -/
theorem support_toggle_status_involutive_witness :
    (∀ c ∈ [SupportCase.mk 5 "p1" "Max" "ticket" "Support" "sup" "" "" "open"],
      c.status = "open" ∨ c.status = "closed") ∧
    support_toggle_status
        (support_toggle_status
          [SupportCase.mk 5 "p1" "Max" "ticket" "Support" "sup" "" "" "open"] "p1" 5)
        "p1" 5 =
      [SupportCase.mk 5 "p1" "Max" "ticket" "Support" "sup" "" "" "open"] :=
  ⟨by decide,
   (support_toggle_status_involutive
     [SupportCase.mk 5 "p1" "Max" "ticket" "Support" "sup" "" "" "open"] "p1" 5
     (by decide)).1⟩

/-- C9: a support-case update whose submitted status is outside
{open, closed} persists the safe default "open" on the matched case,
and a vehicle quick action outside the fixed allowed set is rejected
with HTTP 400 (`Except.error 400`), leaving every vehicle row
unmodified. -/
theorem invalid_enum_inputs_coerced_or_rejected
    (cases : List SupportCase) (pid : String) (cid : Nat)
    (ct sn area scn content status : String)
    (vehicles : List Vehicle) (vid : Nat) (action : String)
    (hs : ¬ (status = "open" ∨ status = "closed"))
    (ha : action ∉ allowedQuickActions) :
    (∀ c ∈ support_update cases pid cid ct sn area scn content status,
      c.id = cid → c.player_pid = pid → c.status = "open") ∧
    vehicle_quick_action vehicles vid action = Except.error 400 := by
  constructor
  · intro c hc hid hpid
    rw [support_update] at hc
    obtain ⟨c0, hc0, rfl⟩ := List.mem_map.mp hc
    by_cases hm : c0.id = cid ∧ c0.player_pid = pid
    · simp [hm, hs]
    · simp only [hm, if_false] at hid hpid
      exact absurd ⟨hid, hpid⟩ hm
  · rw [vehicle_quick_action]
    simp [ha]

/-- C9 witness: status "weird" is persisted as "open"; action
"explode" is rejected with 400. -/
theorem invalid_enum_inputs_coerced_or_rejected_witness :
    (¬ (("weird" : String) = "open" ∨ ("weird" : String) = "closed")) ∧
    (("explode" : String) ∉ allowedQuickActions) ∧
    ((∀ c ∈ support_update
        [SupportCase.mk 5 "p1" "Max" "ticket" "Support" "sup" "" "" "open"]
        "p1" 5 "t" "s" "Support" "" "" "weird",
      c.id = 5 → c.player_pid = "p1" → c.status = "open") ∧
     vehicle_quick_action [Vehicle.mk 9 "p1" 1 1 0 0] 9 "explode" =
       Except.error 400) :=
  ⟨by decide, by decide,
   invalid_enum_inputs_coerced_or_rejected
     [SupportCase.mk 5 "p1" "Max" "ticket" "Support" "sup" "" "" "open"]
     "p1" 5 "t" "s" "Support" "" "" "weird"
     [Vehicle.mk 9 "p1" 1 1 0 0] 9 "explode" (by decide) (by decide)⟩

/-- C8: the login handler's three failure causes — unknown username,
deactivated account, wrong password — all yield the same generic
login-page response, and the session user id is written exactly when a
row is found, is active, and the password verifies. -/
theorem login_failures_indistinguishable (users : List AdminUserRow)
    (verify : String → String → Bool) (username password : String) :
    ((login users verify username password).2 = none ↔
      ¬ ∃ r, findUser users username = some r ∧ r.is_active = true ∧
        verify password r.password_hash = true) ∧
    ((login users verify username password).2 = none →
      (login users verify username password).1 =
        LoginResponse.loginPage (some "Login fehlgeschlagen.")) ∧
    (∀ r, findUser users username = some r → r.is_active = true →
      verify password r.password_hash = true →
      (login users verify username password).2 = some r.id) := by
  cases hfind : findUser users username with
  | none =>
      refine ⟨?_, ?_, ?_⟩ <;> simp [login, hfind]
  | some r =>
      by_cases hact : r.is_active = true
      · by_cases hver : verify password r.password_hash = true
        · refine ⟨?_, ?_, ?_⟩ <;> simp [login, hfind, hact, hver]
        · refine ⟨?_, ?_, ?_⟩ <;> simp [login, hfind, hact, hver]
      · refine ⟨?_, ?_, ?_⟩ <;> simp [login, hfind, hact]

/-- C8 witness: a correct password on a deactivated account leaves the
session unset and renders the generic failure message. -/
theorem login_failures_indistinguishable_witness :
    ((login [AdminUserRow.mk 1 "bob" "secret" false] (fun p h => p == h)
        "bob" "secret").2 = none) ∧
    ((login [AdminUserRow.mk 1 "bob" "secret" false] (fun p h => p == h)
        "bob" "secret").1 = LoginResponse.loginPage (some "Login fehlgeschlagen.")) :=
  ⟨by decide,
   (login_failures_indistinguishable [AdminUserRow.mk 1 "bob" "secret" false]
     (fun p h => p == h) "bob" "secret").2.1 (by decide)⟩

end ArmaWeb
